import Mathlib

/-!
# Formal model of `product_service.py`

A shallow embedding of the in-memory product CRUD service
(`src/product_service.py`).  The store is modelled as an ordered
association list from product id (a string) to a product record, which is
exactly the observable behaviour of a Python `dict` (insertion order kept,
assignment to an existing key overwrites in place, `del` removes).

JSON values produced by `json.loads` are modelled by `PyVal`.  Numbers are
modelled by exact rationals (the claims never depend on float rounding).
Python's `bool` is a subclass of `int`, so a JSON `true`/`false` passes the
`isinstance(price, int)` check with numeric value 1/0; `PyVal.bool` is
therefore treated as a number of value 1/0 by the price validation, exactly
as the interpreter does.

A request body is modelled after the parse step: `none` when the raw body is
not valid JSON (`json.JSONDecodeError`), `some payload` when it parses to a
JSON object.  (A body that is valid JSON but not an object makes the Python
handlers raise on `payload.get`; no claim concerns that path, and the POST
handler turns it into a 500 like any other unexpected exception.)
-/

namespace ProductService

/-- A JSON value as decoded by `json.loads`. -/
inductive PyVal where
  | null
  | bool (b : Bool)
  | num (q : ℚ)
  | str (s : String)
  | list (xs : List PyVal)
  | dict (fields : List (String × PyVal))

/-- A stored product record: the Python dict `{"name": ..., "price": ...}`.
`price` keeps the raw decoded value that passed validation. -/
structure Product where
  name : String
  price : PyVal

/-- The in-memory store `products`: ordered mapping id ↦ record. -/
abbrev Store := List (String × Product)

/-- A decoded JSON object body (`payload`). -/
abbrev Payload := List (String × PyVal)

/-- The request body after `json.loads`: `none` models a JSON decode error. -/
abbrev Body := Option Payload

/-- Response body shapes the service can emit, each standing for one exact
JSON rendering:
* `records ps`  — `json.dumps(list(products.values()))`, a JSON array of
  `{"name": ..., "price": ...}` objects;
* `record p`    — one `{"name": ..., "price": ...}` object;
* `resource id p` — `{"id": id, "name": p.name, "price": p.price}`;
* `err msg`     — `{"error": msg}`. -/
inductive RespBody where
  | records (ps : List Product)
  | record (p : Product)
  | resource (id : String) (p : Product)
  | err (msg : String)

/-- An HTTP response: status code and JSON body. -/
structure Resp where
  status : Nat
  body : RespBody

/-! ## Store primitives (Python `dict` operations) -/

/-- `products[k]` / `k in products` probe: first (only) binding of `k`. -/
def storeFind : Store → String → Option Product
  | [], _ => none
  | (k', v') :: rest, k => if k' = k then some v' else storeFind rest k

/-- `products[k] = v`: overwrite in place if the key exists, else append —
the observable behaviour of assignment to a Python `dict`. -/
def storeInsert : Store → String → Product → Store
  | [], k, v => [(k, v)]
  | (k', v') :: rest, k, v =>
      if k' = k then (k, v) :: rest else (k', v') :: storeInsert rest k v

/-- `del products[k]`: remove the binding of `k`. -/
def storeErase : Store → String → Store
  | [], _ => []
  | (k', v') :: rest, k => if k' = k then rest else (k', v') :: storeErase rest k

/-! ## Scalar helpers mirroring the Python expressions -/

/-- The whitespace characters `str.strip()` removes (the ASCII ones; the
claims use no exotic Unicode whitespace). -/
def pySpace (c : Char) : Bool :=
  c = ' ' || c = '\t' || c = '\n' || c = '\r' || c = '\x0b' || c = '\x0c'

/-- `s.strip()`: drop leading and trailing whitespace. -/
def pyStrip (s : String) : String :=
  ⟨((s.data.dropWhile pySpace).reverse.dropWhile pySpace).reverse⟩

/-- `payload.get(k)`: the bound value, or `None` when the key is absent. -/
def pyGet (payload : Payload) (k : String) : PyVal :=
  match payload.lookup k with
  | some v => v
  | none => PyVal.null

/-- `k in payload`. -/
def hasKey (payload : Payload) (k : String) : Bool :=
  (payload.lookup k).isSome

/-- The numeric value of a non-empty all-digit character sequence. -/
def digitsVal? (l : List Char) : Option Nat :=
  if l ≠ [] ∧ l.all Char.isDigit then
    some (l.foldl (fun acc c => 10 * acc + (c.toNat - '0'.toNat)) 0)
  else none

/-- `int(s)` on an id string: optional `-` sign followed by decimal digits
(`none` models the `ValueError` on anything else; `int()` also tolerates
surrounding whitespace and `+`, which no reachable id contains). -/
def pyInt? (s : String) : Option Int :=
  match s.data with
  | '-' :: rest => (digitsVal? rest).map (fun n => -(n : Int))
  | l => (digitsVal? l).map (fun n => (n : Int))

/-- The decimal digits of `n`, most significant first (`fuel`-driven
structural recursion; called with `fuel = n`, which always suffices). -/
def natDigits : Nat → Nat → List Char
  | 0, _ => []
  | fuel + 1, n =>
      if n = 0 then []
      else natDigits fuel (n / 10) ++ [Char.ofNat ('0'.toNat + n % 10)]

/-- `str(n)` for a natural number. -/
def natToString (n : Nat) : String :=
  if n = 0 then "0" else ⟨natDigits n n⟩

/-- `str(i)` for a Python integer. -/
def intToString : Int → String
  | Int.ofNat n => natToString n
  | Int.negSucc m => ⟨'-' :: (natToString (m + 1)).data⟩

/-- `path.startswith('/products/')` specialised to a prefix test on the
character lists. -/
def strStarts (s pre : String) : Bool :=
  pre.data.isPrefixOf s.data

/-- The validation `isinstance(name, str) and name.strip()`:
`some` of the stripped name when it passes, `none` when the handler must
answer 400. -/
def validName : PyVal → Option String
  | PyVal.str s => if pyStrip s = "" then none else some (pyStrip s)
  | _ => none

/-- The numeric value of a value that passes
`isinstance(price, int) or isinstance(price, float)`.  Python `bool` is a
subclass of `int` (`True == 1`, `False == 0`), so JSON booleans qualify. -/
def priceVal : PyVal → Option ℚ
  | PyVal.num q => some q
  | PyVal.bool b => some (if b then 1 else 0)
  | _ => none

/-- The full price check of the handlers:
`(isinstance(price, int) or isinstance(price, float)) and not (price < 0)`. -/
def priceOk (v : PyVal) : Bool :=
  match priceVal v with
  | some q => decide (0 ≤ q)
  | none => false

/-- `self.path.split('/')[-1]`: the last `/`-separated segment, i.e. the
characters after the last `'/'` (the whole string when there is none). -/
def lastSeg (path : String) : String :=
  ⟨(path.data.reverse.takeWhile (fun c => c ≠ '/')).reverse⟩

/-! ## Fixed message strings -/

def nameErr : String := "Field 'name' is required and must be a non-empty string"

def priceErr : String := "Field 'price' is required and must be a non-negative number"

def invalidJsonErr : String := "Invalid JSON payload"

def productNotFoundErr : String := "Product not found"

def endpointNotFoundErr : String := "Endpoint not found"

/-- The generic 500 message (the Python handler appends the exception text
`f"Internal server error: {e}"`; no claim depends on the suffix). -/
def internalErr : String := "Internal server error"

/-! ## The HTTP handlers -/

/-- `[int(pid) for pid in products.keys()]`: `none` models the `ValueError`
raised by `int()` on a non-numeric key. -/
def keyVals? : Store → Option (List Int)
  | [] => some []
  | (k, _) :: rest =>
      match pyInt? k, keyVals? rest with
      | some i, some is => some (i :: is)
      | _, _ => none

/-- The id-generation block of `do_POST`:
`max(int(pid) for pid in products.keys()) + 1` as a string, or `"1"` on an
empty store.  `none` models the `ValueError` raised by `int()` on a
non-numeric key, which the surrounding `try` turns into a 500. -/
def newId? (s : Store) : Option String :=
  if s.isEmpty then some "1"
  else
    match keyVals? s with
    | none => none
    | some vals => some (intToString ((vals.max?).getD 0 + 1))

/-- `do_GET`: list all products, get one by id, or 404. GET never mutates
the store. -/
def do_GET (store : Store) (path : String) : Resp :=
  if path = "/products" then
    ⟨200, RespBody.records (store.map Prod.snd)⟩
  else if strStarts path "/products/" then
    match storeFind store (lastSeg path) with
    | some p => ⟨200, RespBody.record p⟩
    | none => ⟨404, RespBody.err productNotFoundErr⟩
  else
    ⟨404, RespBody.err endpointNotFoundErr⟩

/-- `do_POST`: create a product.  Validation order: JSON parse, then `name`,
then `price`; then the new id is generated (a non-numeric key in the store
makes `int()` raise, caught as a 500) and the record stored. -/
def do_POST (store : Store) (path : String) (body : Body) : Store × Resp :=
  if path = "/products" then
    match body with
    | none => (store, ⟨400, RespBody.err invalidJsonErr⟩)
    | some payload =>
      match validName (pyGet payload "name") with
      | none => (store, ⟨400, RespBody.err nameErr⟩)
      | some stripped =>
        if priceOk (pyGet payload "price") then
          match newId? store with
          | none => (store, ⟨500, RespBody.err internalErr⟩)
          | some nid =>
            let r : Product := ⟨stripped, pyGet payload "price"⟩
            (storeInsert store nid r, ⟨201, RespBody.resource nid r⟩)
        else (store, ⟨400, RespBody.err priceErr⟩)
  else
    (store, ⟨404, RespBody.err endpointNotFoundErr⟩)

/-- `do_PUT`: full replace.  The id lookup happens before the body is
parsed; both fields must pass the same validation as Create. -/
def do_PUT (store : Store) (path : String) (body : Body) : Store × Resp :=
  if strStarts path "/products/" then
    let pid := lastSeg path
    match storeFind store pid with
    | none => (store, ⟨404, RespBody.err productNotFoundErr⟩)
    | some _ =>
      match body with
      | none => (store, ⟨400, RespBody.err invalidJsonErr⟩)
      | some payload =>
        match validName (pyGet payload "name") with
        | none => (store, ⟨400, RespBody.err nameErr⟩)
        | some stripped =>
          if priceOk (pyGet payload "price") then
            let r : Product := ⟨stripped, pyGet payload "price"⟩
            (storeInsert store pid r, ⟨200, RespBody.resource pid r⟩)
          else (store, ⟨400, RespBody.err priceErr⟩)
  else
    (store, ⟨404, RespBody.err endpointNotFoundErr⟩)

/-- `do_PATCH`: partial update.  The `name` field is validated and written
to the store before `price` is even looked at, exactly as in the source:
a later `price` failure does not roll the `name` write back. -/
def do_PATCH (store : Store) (path : String) (body : Body) : Store × Resp :=
  if strStarts path "/products/" then
    let pid := lastSeg path
    match storeFind store pid with
    | none => (store, ⟨404, RespBody.err productNotFoundErr⟩)
    | some r0 =>
      match body with
      | none => (store, ⟨400, RespBody.err invalidJsonErr⟩)
      | some payload =>
        let nameStep : Option Product :=
          if hasKey payload "name" then
            match validName (pyGet payload "name") with
            | none => none
            | some stripped => some ⟨stripped, r0.price⟩
          else some r0
        match nameStep with
        | none => (store, ⟨400, RespBody.err nameErr⟩)
        | some r1 =>
          let store1 :=
            if hasKey payload "name" then storeInsert store pid r1 else store
          if hasKey payload "price" then
            if priceOk (pyGet payload "price") then
              let r2 : Product := ⟨r1.name, pyGet payload "price"⟩
              (storeInsert store1 pid r2, ⟨200, RespBody.resource pid r2⟩)
            else (store1, ⟨400, RespBody.err priceErr⟩)
          else (store1, ⟨200, RespBody.resource pid r1⟩)
  else
    (store, ⟨404, RespBody.err endpointNotFoundErr⟩)

/-- `do_DELETE`: remove by id, echoing the deleted record. -/
def do_DELETE (store : Store) (path : String) : Store × Resp :=
  if strStarts path "/products/" then
    let pid := lastSeg path
    match storeFind store pid with
    | none => (store, ⟨404, RespBody.err productNotFoundErr⟩)
    | some r => (storeErase store pid, ⟨200, RespBody.resource pid r⟩)
  else
    (store, ⟨404, RespBody.err endpointNotFoundErr⟩)

/-! ## The store invariant (claim C2) -/

/-- `true` iff the string has a non-whitespace character, i.e. is non-empty
and not whitespace-only. -/
def hasNonSpace (s : String) : Bool :=
  s.data.any (fun c => !pySpace c)

/-- The invariant of §3 of the spec: ids are pairwise distinct, every stored
name is non-empty and not whitespace-only, and every stored price is a
number (in Python's sense, booleans included) with non-negative value. -/
def Inv (s : Store) : Prop :=
  (s.map Prod.fst).Nodup ∧
    ∀ kv ∈ s, hasNonSpace kv.2.name = true ∧ priceOk kv.2.price = true

instance (s : Store) : Decidable (Inv s) := by
  unfold Inv; exact inferInstance

/-- The id the spec's lifecycle rule prescribes for a create, in the spec's
words: "max existing numeric id + 1, or \"1\" if the store is empty"
(stated for stores whose ids are all numeric; the `getD` defaults are
unreachable there). -/
def specAssignedId (s : Store) : String :=
  if s.isEmpty then "1"
  else intToString (((s.map (fun kv => (pyInt? kv.1).getD 0)).max?).getD 0 + 1)

/-! ## Lemmas about the store primitives -/

theorem storeFind_storeInsert_self (s : Store) (k : String) (v : Product) :
    storeFind (storeInsert s k v) k = some v := by
  induction s with
  | nil => simp [storeInsert, storeFind]
  | cons hd tl ih =>
      obtain ⟨k', v'⟩ := hd
      by_cases h : k' = k
      · simp [storeInsert, h, storeFind]
      · simp [storeInsert, h, storeFind, ih]

theorem mem_storeInsert {s : Store} {k : String} {v : Product} {kv : String × Product}
    (h : kv ∈ storeInsert s k v) : kv = (k, v) ∨ kv ∈ s := by
  induction s with
  | nil => simpa [storeInsert] using h
  | cons hd tl ih =>
      obtain ⟨k', v'⟩ := hd
      by_cases hk : k' = k
      · simp only [storeInsert, if_pos hk, List.mem_cons] at h
        rcases h with h | h
        · exact Or.inl h
        · exact Or.inr (List.mem_cons_of_mem _ h)
      · simp only [storeInsert, if_neg hk, List.mem_cons] at h
        rcases h with h | h
        · exact Or.inr (by simp [h])
        · rcases ih h with h' | h'
          · exact Or.inl h'
          · exact Or.inr (List.mem_cons_of_mem _ h')

theorem mem_keys_storeInsert {s : Store} {k a : String} {v : Product}
    (h : a ∈ (storeInsert s k v).map Prod.fst) : a = k ∨ a ∈ s.map Prod.fst := by
  rcases List.mem_map.1 h with ⟨kv, hmem, hfst⟩
  rcases mem_storeInsert hmem with h' | h'
  · left; rw [← hfst, h']
  · right; exact hfst ▸ List.mem_map_of_mem Prod.fst h'

theorem nodup_keys_storeInsert {s : Store} (k : String) (v : Product)
    (h : (s.map Prod.fst).Nodup) : ((storeInsert s k v).map Prod.fst).Nodup := by
  induction s with
  | nil => simp [storeInsert]
  | cons hd tl ih =>
      obtain ⟨k', v'⟩ := hd
      simp only [List.map_cons, List.nodup_cons] at h
      by_cases hk : k' = k
      · subst hk
        simpa [storeInsert, List.nodup_cons] using h
      · simp only [storeInsert, if_neg hk, List.map_cons, List.nodup_cons]
        refine ⟨fun hmem => ?_, ih h.2⟩
        rcases mem_keys_storeInsert hmem with h' | h'
        · exact hk h'
        · exact h.1 h'

theorem mem_storeErase {s : Store} {k : String} {kv : String × Product}
    (h : kv ∈ storeErase s k) : kv ∈ s := by
  induction s with
  | nil => simp [storeErase] at h
  | cons hd tl ih =>
      obtain ⟨k', v'⟩ := hd
      by_cases hk : k' = k
      · simp only [storeErase, if_pos hk] at h
        exact List.mem_cons_of_mem _ h
      · simp only [storeErase, if_neg hk, List.mem_cons] at h
        rcases h with h | h
        · exact h ▸ List.mem_cons_self _ _
        · exact List.mem_cons_of_mem _ (ih h)

theorem keys_storeErase_sublist (s : Store) (k : String) :
    List.Sublist ((storeErase s k).map Prod.fst) (s.map Prod.fst) := by
  induction s with
  | nil => exact List.Sublist.refl _
  | cons hd tl ih =>
      obtain ⟨k', v'⟩ := hd
      by_cases hk : k' = k
      · simp only [storeErase, if_pos hk, List.map_cons]
        exact List.sublist_cons_self k' (tl.map Prod.fst)
      · simpa [storeErase, hk] using ih.cons₂ k'

theorem storeFind_eq_none_of_not_mem {s : Store} {k : String}
    (h : k ∉ s.map Prod.fst) : storeFind s k = none := by
  induction s with
  | nil => rfl
  | cons hd tl ih =>
      obtain ⟨k', v'⟩ := hd
      simp only [List.map_cons, List.mem_cons] at h
      push_neg at h
      have hne : ¬k' = k := fun hc => h.1 hc.symm
      simp [storeFind, hne, ih h.2]

theorem storeFind_mem {s : Store} {k : String} {v : Product}
    (h : storeFind s k = some v) : (k, v) ∈ s := by
  induction s with
  | nil => simp [storeFind] at h
  | cons hd tl ih =>
      obtain ⟨k', v'⟩ := hd
      by_cases hk : k' = k
      · simp only [storeFind, if_pos hk] at h
        subst hk
        simp [← Option.some_inj.1 h]
      · simp only [storeFind, if_neg hk] at h
        exact List.mem_cons_of_mem _ (ih h)

theorem storeFind_storeErase_self {s : Store} (k : String)
    (h : (s.map Prod.fst).Nodup) : storeFind (storeErase s k) k = none := by
  induction s with
  | nil => rfl
  | cons hd tl ih =>
      obtain ⟨k', v'⟩ := hd
      simp only [List.map_cons, List.nodup_cons] at h
      by_cases hk : k' = k
      · subst hk
        simp only [storeErase, if_pos rfl]
        exact storeFind_eq_none_of_not_mem h.1
      · simp [storeErase, hk, storeFind, ih h.2]

/-! ## Lemmas about name stripping -/

theorem head?_dropWhile_neg {α : Type} (p : α → Bool) (l : List α) (a : α)
    (h : (l.dropWhile p).head? = some a) : p a = false := by
  induction l with
  | nil => simp at h
  | cons b tl ih =>
      by_cases hp : p b
      · rw [List.dropWhile_cons_of_pos hp] at h
        exact ih h
      · rw [List.dropWhile_cons_of_neg hp] at h
        simp only [List.head?_cons, Option.some_inj] at h
        subst h
        simpa using hp

theorem mem_dropWhile_of_neg {α : Type} {p : α → Bool} {l : List α} {a : α}
    (hmem : a ∈ l) (ha : p a = false) : a ∈ l.dropWhile p := by
  induction l with
  | nil => simp at hmem
  | cons b tl ih =>
      by_cases hp : p b
      · rw [List.dropWhile_cons_of_pos hp]
        rcases List.mem_cons.1 hmem with h | h
        · subst h; rw [ha] at hp; exact absurd hp (by simp)
        · exact ih h
      · rw [List.dropWhile_cons_of_neg hp]
        exact hmem

theorem hasNonSpace_pyStrip {s : String} (h : pyStrip s ≠ "") :
    hasNonSpace (pyStrip s) = true := by
  unfold pyStrip at h ⊢
  rcases hd : s.data.dropWhile pySpace with _ | ⟨c, cs⟩
  · rw [hd] at h
    exact absurd rfl h
  · have hc : pySpace c = false := by
      have := head?_dropWhile_neg pySpace s.data c
      rw [hd] at this
      exact this rfl
    have hmem : c ∈ ((c :: cs).reverse.dropWhile pySpace).reverse := by
      rw [List.mem_reverse]
      exact mem_dropWhile_of_neg (List.mem_reverse.2 (List.mem_cons_self c cs)) hc
    simp only [hasNonSpace, List.any_eq_true]
    exact ⟨c, hmem, by simp [hc]⟩

theorem hasNonSpace_of_validName {v : PyVal} {t : String}
    (h : validName v = some t) : hasNonSpace t = true := by
  cases v with
  | str s =>
      by_cases hs : pyStrip s = ""
      · simp [validName, hs] at h
      · simp only [validName, if_neg hs, Option.some_inj] at h
        rw [← h]
        exact hasNonSpace_pyStrip hs
  | null => simp [validName] at h
  | bool b => simp [validName] at h
  | num q => simp [validName] at h
  | list xs => simp [validName] at h
  | dict fs => simp [validName] at h

/-! ## The id-generation rule refines the spec's lifecycle rule -/

theorem keyVals?_eq (s : Store) (h : ∀ k ∈ s.map Prod.fst, (pyInt? k).isSome) :
    keyVals? s = some (s.map fun kv => (pyInt? kv.1).getD 0) := by
  induction s with
  | nil => rfl
  | cons hd tl ih =>
      obtain ⟨k, v⟩ := hd
      have hk : (pyInt? k).isSome := h k (by simp)
      rcases hik : pyInt? k with _ | i
      · rw [hik] at hk; simp at hk
      · have htl := ih (fun k' hk' => h k' (by simp [hk']))
        simp [keyVals?, hik, htl]

theorem newId?_eq_spec (s : Store) (h : ∀ k ∈ s.map Prod.fst, (pyInt? k).isSome) :
    newId? s = some (specAssignedId s) := by
  cases s with
  | nil => rfl
  | cons hd tl =>
      have hkv := keyVals?_eq (hd :: tl) h
      simp [newId?, specAssignedId, hkv]

/-! ## The claims -/

/-- C1: a successful Create (`POST /products` with a valid body) assigns
exactly the id of the spec's lifecycle rule — the string of (max numeric id
currently in the store) + 1, or `"1"` on an empty store — stores the
trimmed name with the price, and answers 201 with `{id, name, price}`. -/
theorem create_assigns_next_id (s : Store) (payload : Payload) (t : String)
    (hkeys : ∀ k ∈ s.map Prod.fst, (pyInt? k).isSome)
    (hname : validName (pyGet payload "name") = some t)
    (hprice : priceOk (pyGet payload "price") = true) :
    do_POST s "/products" (some payload) =
      (storeInsert s (specAssignedId s) ⟨t, pyGet payload "price"⟩,
       ⟨201, RespBody.resource (specAssignedId s) ⟨t, pyGet payload "price"⟩⟩) := by
  have hid := newId?_eq_spec s hkeys
  simp [do_POST, hname, hprice, hid]

theorem create_assigns_next_id_witness :
    do_POST [("1", ⟨"Laptop", PyVal.num 1200⟩)] "/products"
        (some [("name", PyVal.str " Mouse "), ("price", PyVal.num 25)]) =
      ([("1", ⟨"Laptop", PyVal.num 1200⟩), ("2", ⟨"Mouse", PyVal.num 25⟩)],
       ⟨201, RespBody.resource "2" ⟨"Mouse", PyVal.num 25⟩⟩) := by
  exact create_assigns_next_id [("1", ⟨"Laptop", PyVal.num 1200⟩)]
    [("name", PyVal.str " Mouse "), ("price", PyVal.num 25)] "Mouse"
    (by decide) rfl rfl

/-- C3: a `PUT /products/{id}` on an existing id whose body lacks or fails
validation of `name` or `price` answers 400 and leaves the store — in
particular the record of that id — unchanged. -/
theorem put_invalid_leaves_record (s : Store) (path : String) (payload : Payload)
    (r : Product)
    (hroute : strStarts path "/products/" = true)
    (hfind : storeFind s (lastSeg path) = some r)
    (hbad : validName (pyGet payload "name") = none ∨
      priceOk (pyGet payload "price") = false) :
    (do_PUT s path (some payload)).1 = s ∧
    (do_PUT s path (some payload)).2.status = 400 ∧
    storeFind (do_PUT s path (some payload)).1 (lastSeg path) = some r := by
  rcases hbad with hb | hb
  · simp [do_PUT, hroute, hfind, hb]
  · rcases hn : validName (pyGet payload "name") with _ | t
    · simp [do_PUT, hroute, hfind, hn]
    · simp [do_PUT, hroute, hfind, hn, hb]

theorem put_invalid_leaves_record_witness :
    (do_PUT [("1", ⟨"Laptop", PyVal.num 1200⟩)] "/products/1"
        (some [("name", PyVal.str "OnlyName")])).1 =
      [("1", ⟨"Laptop", PyVal.num 1200⟩)] ∧
    (do_PUT [("1", ⟨"Laptop", PyVal.num 1200⟩)] "/products/1"
        (some [("name", PyVal.str "OnlyName")])).2.status = 400 ∧
    storeFind (do_PUT [("1", ⟨"Laptop", PyVal.num 1200⟩)] "/products/1"
        (some [("name", PyVal.str "OnlyName")])).1 "1" =
      some ⟨"Laptop", PyVal.num 1200⟩ := by
  exact put_invalid_leaves_record [("1", ⟨"Laptop", PyVal.num 1200⟩)] "/products/1"
    [("name", PyVal.str "OnlyName")] ⟨"Laptop", PyVal.num 1200⟩ rfl rfl (Or.inr rfl)

/-- C4: a `PATCH /products/{id}` on an existing id whose body holds exactly
one of `name`/`price` with a valid value answers 200 with the resulting
`{id, name, price}`: the present field is updated and the absent field of
the stored record keeps its previous value. -/
theorem patch_single_field (s : Store) (path : String) (payload : Payload)
    (r0 : Product)
    (hroute : strStarts path "/products/" = true)
    (hfind : storeFind s (lastSeg path) = some r0) :
    (∀ t, hasKey payload "name" = true → hasKey payload "price" = false →
        validName (pyGet payload "name") = some t →
        do_PATCH s path (some payload) =
          (storeInsert s (lastSeg path) ⟨t, r0.price⟩,
           ⟨200, RespBody.resource (lastSeg path) ⟨t, r0.price⟩⟩)) ∧
    (hasKey payload "name" = false → hasKey payload "price" = true →
        priceOk (pyGet payload "price") = true →
        do_PATCH s path (some payload) =
          (storeInsert s (lastSeg path) ⟨r0.name, pyGet payload "price"⟩,
           ⟨200, RespBody.resource (lastSeg path) ⟨r0.name, pyGet payload "price"⟩⟩)) := by
  constructor
  · intro t hn hp hv
    simp [do_PATCH, hroute, hfind, hn, hp, hv]
  · intro hn hp hv
    simp [do_PATCH, hroute, hfind, hn, hp, hv]

theorem patch_single_field_witness :
    do_PATCH [("1", ⟨"Laptop", PyVal.num 1200⟩)] "/products/1"
        (some [("price", PyVal.num 35)]) =
      ([("1", ⟨"Laptop", PyVal.num 35⟩)],
       ⟨200, RespBody.resource "1" ⟨"Laptop", PyVal.num 35⟩⟩) := by
  exact (patch_single_field [("1", ⟨"Laptop", PyVal.num 1200⟩)] "/products/1"
    [("price", PyVal.num 35)] ⟨"Laptop", PyVal.num 1200⟩ rfl rfl).2 rfl rfl rfl

/-- C9: a `POST /products` whose valid JSON body has an invalid or missing
name — whatever its price — answers 400 with the name message and leaves
the store unchanged: the name check comes first.  (In particular the body
`{"price": -1}` gets the name error; see the witness.) -/
theorem name_checked_before_price (s : Store) (payload : Payload)
    (hname : validName (pyGet payload "name") = none)
    (_hprice : priceOk (pyGet payload "price") = false) :
    do_POST s "/products" (some payload) = (s, ⟨400, RespBody.err nameErr⟩) := by
  simp [do_POST, hname]

theorem name_checked_before_price_witness :
    do_POST [("1", ⟨"Laptop", PyVal.num 1200⟩)] "/products"
        (some [("price", PyVal.num (-1))]) =
      ([("1", ⟨"Laptop", PyVal.num 1200⟩)], ⟨400, RespBody.err nameErr⟩) := by
  exact name_checked_before_price [("1", ⟨"Laptop", PyVal.num 1200⟩)]
    [("price", PyVal.num (-1))] rfl rfl

/-- C10: a `PATCH /products/{id}` on an existing id whose body carries a
valid `name` and an invalid `price` answers 400 with the price message, yet
the record's name has already been overwritten with the trimmed new name:
the earlier field write is not rolled back. -/
theorem patch_partial_write_not_rolled_back (s : Store) (path : String)
    (payload : Payload) (r0 : Product) (t : String)
    (hroute : strStarts path "/products/" = true)
    (hfind : storeFind s (lastSeg path) = some r0)
    (hn : hasKey payload "name" = true)
    (hname : validName (pyGet payload "name") = some t)
    (hp : hasKey payload "price" = true)
    (hprice : priceOk (pyGet payload "price") = false) :
    do_PATCH s path (some payload) =
      (storeInsert s (lastSeg path) ⟨t, r0.price⟩, ⟨400, RespBody.err priceErr⟩) ∧
    storeFind (do_PATCH s path (some payload)).1 (lastSeg path) =
      some ⟨t, r0.price⟩ := by
  have h1 : do_PATCH s path (some payload) =
      (storeInsert s (lastSeg path) ⟨t, r0.price⟩, ⟨400, RespBody.err priceErr⟩) := by
    simp [do_PATCH, hroute, hfind, hn, hname, hp, hprice]
  refine ⟨h1, ?_⟩
  rw [h1]
  exact storeFind_storeInsert_self s (lastSeg path) ⟨t, r0.price⟩

theorem patch_partial_write_not_rolled_back_witness :
    do_PATCH [("1", ⟨"Laptop", PyVal.num 1200⟩)] "/products/1"
        (some [("name", PyVal.str "New"), ("price", PyVal.str "x")]) =
      ([("1", ⟨"New", PyVal.num 1200⟩)], ⟨400, RespBody.err priceErr⟩) ∧
    storeFind (do_PATCH [("1", ⟨"Laptop", PyVal.num 1200⟩)] "/products/1"
        (some [("name", PyVal.str "New"), ("price", PyVal.str "x")])).1 "1" =
      some ⟨"New", PyVal.num 1200⟩ := by
  exact patch_partial_write_not_rolled_back [("1", ⟨"Laptop", PyVal.num 1200⟩)]
    "/products/1" [("name", PyVal.str "New"), ("price", PyVal.str "x")]
    ⟨"Laptop", PyVal.num 1200⟩ "New" rfl rfl rfl rfl rfl rfl

theorem ne_products_of_strStarts {path : String}
    (h : strStarts path "/products/" = true) : path ≠ "/products" := by
  intro hc
  rw [hc] at h
  exact absurd h (by decide)

/-- C5 (amended): for `POST /products`, and for `PUT`/`PATCH` on an id that
exists in the store, a body that is not valid JSON yields 400
`{"error": "Invalid JSON payload"}` and leaves the store unchanged.  (On a
non-existing id, `PUT`/`PATCH` answer 404 before the body is parsed — see
the counterexample.) -/
theorem invalid_json_yields_400 (s : Store) (path : String) :
    (path = "/products" →
      do_POST s path none = (s, ⟨400, RespBody.err invalidJsonErr⟩)) ∧
    (∀ r, strStarts path "/products/" = true →
      storeFind s (lastSeg path) = some r →
      do_PUT s path none = (s, ⟨400, RespBody.err invalidJsonErr⟩) ∧
      do_PATCH s path none = (s, ⟨400, RespBody.err invalidJsonErr⟩)) := by
  refine ⟨fun hp => by simp [do_POST, hp], fun r hroute hfind => ⟨?_, ?_⟩⟩
  · simp [do_PUT, hroute, hfind]
  · simp [do_PATCH, hroute, hfind]

theorem invalid_json_yields_400_witness :
    do_POST [("1", ⟨"Laptop", PyVal.num 1200⟩)] "/products" none =
      ([("1", ⟨"Laptop", PyVal.num 1200⟩)], ⟨400, RespBody.err invalidJsonErr⟩) ∧
    do_PUT [("1", ⟨"Laptop", PyVal.num 1200⟩)] "/products/1" none =
      ([("1", ⟨"Laptop", PyVal.num 1200⟩)], ⟨400, RespBody.err invalidJsonErr⟩) ∧
    do_PATCH [("1", ⟨"Laptop", PyVal.num 1200⟩)] "/products/1" none =
      ([("1", ⟨"Laptop", PyVal.num 1200⟩)], ⟨400, RespBody.err invalidJsonErr⟩) := by
  refine ⟨(invalid_json_yields_400 _ "/products").1 rfl, ?_, ?_⟩
  · exact ((invalid_json_yields_400 [("1", ⟨"Laptop", PyVal.num 1200⟩)]
      "/products/1").2 ⟨"Laptop", PyVal.num 1200⟩ rfl rfl).1
  · exact ((invalid_json_yields_400 [("1", ⟨"Laptop", PyVal.num 1200⟩)]
      "/products/1").2 ⟨"Laptop", PyVal.num 1200⟩ rfl rfl).2

/-- C5 (counterexample): a `PUT /products/1` with an unparseable body on a
store without id "1" answers 404 `{"error": "Product not found"}` — not the
400 `{"error": "Invalid JSON payload"}` the claim demands of every PUT with
an invalid-JSON body — because the id lookup precedes the body parse. -/
theorem put_bad_json_missing_id_404 :
    do_PUT ([] : Store) "/products/1" none =
      ([], ⟨404, RespBody.err productNotFoundErr⟩) ∧
    (do_PUT ([] : Store) "/products/1" none).2.status ≠ 400 :=
  ⟨rfl, by decide⟩

/-- C6: DELETE on an existing id removes the record and answers 200 with the
deleted `{id, name, price}`; a subsequent GET of the same id answers 404
`{"error": "Product not found"}`. -/
theorem delete_then_get_404 (s : Store) (path : String) (r : Product)
    (hnodup : (s.map Prod.fst).Nodup)
    (hroute : strStarts path "/products/" = true)
    (hfind : storeFind s (lastSeg path) = some r) :
    do_DELETE s path =
      (storeErase s (lastSeg path), ⟨200, RespBody.resource (lastSeg path) r⟩) ∧
    storeFind (storeErase s (lastSeg path)) (lastSeg path) = none ∧
    do_GET (storeErase s (lastSeg path)) path =
      ⟨404, RespBody.err productNotFoundErr⟩ := by
  have hdel : do_DELETE s path =
      (storeErase s (lastSeg path), ⟨200, RespBody.resource (lastSeg path) r⟩) := by
    simp [do_DELETE, hroute, hfind]
  have hnone := storeFind_storeErase_self (s := s) (lastSeg path) hnodup
  have hne := ne_products_of_strStarts hroute
  refine ⟨hdel, hnone, ?_⟩
  simp [do_GET, hne, hroute, hnone]

theorem delete_then_get_404_witness :
    do_DELETE [("1", ⟨"Laptop", PyVal.num 1200⟩), ("2", ⟨"Mouse", PyVal.num 25⟩)]
        "/products/2" =
      ([("1", ⟨"Laptop", PyVal.num 1200⟩)],
       ⟨200, RespBody.resource "2" ⟨"Mouse", PyVal.num 25⟩⟩) ∧
    storeFind [("1", ⟨"Laptop", PyVal.num 1200⟩)] "2" = none ∧
    do_GET [("1", ⟨"Laptop", PyVal.num 1200⟩)] "/products/2" =
      ⟨404, RespBody.err productNotFoundErr⟩ := by
  exact delete_then_get_404
    [("1", ⟨"Laptop", PyVal.num 1200⟩), ("2", ⟨"Mouse", PyVal.num 25⟩)]
    "/products/2" ⟨"Mouse", PyVal.num 25⟩ (by decide) rfl rfl

/-- C7 (amended): a path that neither equals `/products` nor starts with
`/products/` answers 404 `{"error": "Endpoint not found"}` under every
method.  (A path such as `/products/1/2` instead falls into the id-lookup
branch with id = last segment — see the counterexample.) -/
theorem unknown_route_404 (s : Store) (path : String) (body : Body)
    (h1 : path ≠ "/products")
    (h2 : strStarts path "/products/" = false) :
    do_GET s path = ⟨404, RespBody.err endpointNotFoundErr⟩ ∧
    do_POST s path body = (s, ⟨404, RespBody.err endpointNotFoundErr⟩) ∧
    do_PUT s path body = (s, ⟨404, RespBody.err endpointNotFoundErr⟩) ∧
    do_PATCH s path body = (s, ⟨404, RespBody.err endpointNotFoundErr⟩) ∧
    do_DELETE s path = (s, ⟨404, RespBody.err endpointNotFoundErr⟩) := by
  refine ⟨?_, ?_, ?_, ?_, ?_⟩
  · simp [do_GET, h1, h2]
  · simp [do_POST, h1]
  · simp [do_PUT, h2]
  · simp [do_PATCH, h2]
  · simp [do_DELETE, h2]

theorem unknown_route_404_witness :
    do_GET [] "/invalid_path" = ⟨404, RespBody.err endpointNotFoundErr⟩ ∧
    do_POST [] "/invalid_path" none = ([], ⟨404, RespBody.err endpointNotFoundErr⟩) ∧
    do_PUT [] "/invalid_path" none = ([], ⟨404, RespBody.err endpointNotFoundErr⟩) ∧
    do_PATCH [] "/invalid_path" none = ([], ⟨404, RespBody.err endpointNotFoundErr⟩) ∧
    do_DELETE [] "/invalid_path" = ([], ⟨404, RespBody.err endpointNotFoundErr⟩) :=
  unknown_route_404 [] "/invalid_path" none (by decide) rfl

/-- C7 (counterexample): `/products/1/2` matches neither `/products` nor
`/products/{id}` with one id segment, yet GET answers 200 with the record
of id "2" — the last path segment — when that id exists, not 404
`{"error": "Endpoint not found"}`. -/
theorem nested_path_routes_to_last_segment :
    do_GET [("2", ⟨"X", PyVal.num 5⟩)] "/products/1/2" =
      ⟨200, RespBody.record ⟨"X", PyVal.num 5⟩⟩ ∧
    (do_GET [("2", ⟨"X", PyVal.num 5⟩)] "/products/1/2").status ≠ 404 :=
  ⟨rfl, by decide⟩

/-- C8: with a valid name, Create answers 400 with the price message exactly
when the price value is missing or non-numeric (`priceVal` is `none`;
Python treats booleans as integers, so they count as numbers) or negative.
Equivalently, a successful Create requires a non-negative number. -/
theorem post_price_error_iff (s : Store) (payload : Payload) (t : String)
    (hname : validName (pyGet payload "name") = some t) :
    ((do_POST s "/products" (some payload)).2 = ⟨400, RespBody.err priceErr⟩ ↔
      priceVal (pyGet payload "price") = none ∨
        ∃ q, priceVal (pyGet payload "price") = some q ∧ q < 0) := by
  rcases hv : priceVal (pyGet payload "price") with _ | q
  · have hok : priceOk (pyGet payload "price") = false := by
      simp [priceOk, hv]
    simp [do_POST, hname, hok]
  · by_cases hq : 0 ≤ q
    · have hok : priceOk (pyGet payload "price") = true := by
        simp [priceOk, hv, hq]
      have hlhs : ¬(do_POST s "/products" (some payload)).2 =
          ⟨400, RespBody.err priceErr⟩ := by
        rcases hid : newId? s with _ | nid
        · intro h; simp [do_POST, hname, hok, hid] at h
        · intro h; simp [do_POST, hname, hok, hid] at h
      refine iff_of_false hlhs ?_
      rintro (h | ⟨q', hq', hlt⟩)
      · exact Option.noConfusion h
      · obtain rfl := Option.some_inj.1 hq'
        exact absurd hq (not_le.2 hlt)
    · have hok : priceOk (pyGet payload "price") = false := by
        simp [priceOk, hv, hq]
      have h400 : (do_POST s "/products" (some payload)).2 =
          ⟨400, RespBody.err priceErr⟩ := by
        simp [do_POST, hname, hok]
      exact iff_of_true h400 (Or.inr ⟨q, rfl, not_le.1 hq⟩)

theorem post_price_error_iff_witness :
    ((do_POST [] "/products"
        (some [("name", PyVal.str "Item"), ("price", PyVal.str "free")])).2 =
        ⟨400, RespBody.err priceErr⟩ ↔
      priceVal (pyGet [("name", PyVal.str "Item"), ("price", PyVal.str "free")]
          "price") = none ∨
        ∃ q, priceVal (pyGet [("name", PyVal.str "Item"),
          ("price", PyVal.str "free")] "price") = some q ∧ q < 0) :=
  post_price_error_iff [] [("name", PyVal.str "Item"), ("price", PyVal.str "free")]
    "Item" rfl

theorem Inv_storeInsert {s : Store} {k : String} {v : Product} (h : Inv s)
    (hname : hasNonSpace v.name = true) (hprice : priceOk v.price = true) :
    Inv (storeInsert s k v) := by
  refine ⟨nodup_keys_storeInsert k v h.1, fun kv hkv => ?_⟩
  rcases mem_storeInsert hkv with h' | h'
  · subst h'; exact ⟨hname, hprice⟩
  · exact h.2 kv h'

theorem Inv_storeErase {s : Store} (k : String) (h : Inv s) :
    Inv (storeErase s k) :=
  ⟨List.Nodup.sublist (keys_storeErase_sublist s k) h.1,
   fun kv hkv => h.2 kv (mem_storeErase hkv)⟩

theorem Inv_do_POST (s : Store) (path : String) (body : Body) (h : Inv s) :
    Inv (do_POST s path body).1 := by
  by_cases hp : path = "/products"
  · rcases body with _ | payload
    · simpa [do_POST, hp] using h
    · rcases hn : validName (pyGet payload "name") with _ | t
      · simpa [do_POST, hp, hn] using h
      · cases hpr : priceOk (pyGet payload "price") with
        | false => simpa [do_POST, hp, hn, hpr] using h
        | true =>
            rcases hid : newId? s with _ | nid
            · simpa [do_POST, hp, hn, hpr, hid] using h
            · have hins : Inv (storeInsert s nid ⟨t, pyGet payload "price"⟩) :=
                Inv_storeInsert h (hasNonSpace_of_validName hn) hpr
              simpa [do_POST, hp, hn, hpr, hid] using hins
  · simpa [do_POST, hp] using h

theorem Inv_do_PUT (s : Store) (path : String) (body : Body) (h : Inv s) :
    Inv (do_PUT s path body).1 := by
  cases hr : strStarts path "/products/" with
  | false => simpa [do_PUT, hr] using h
  | true =>
    rcases hf : storeFind s (lastSeg path) with _ | r0
    · simpa [do_PUT, hr, hf] using h
    · rcases body with _ | payload
      · simpa [do_PUT, hr, hf] using h
      · rcases hn : validName (pyGet payload "name") with _ | t
        · simpa [do_PUT, hr, hf, hn] using h
        · cases hpr : priceOk (pyGet payload "price") with
          | false => simpa [do_PUT, hr, hf, hn, hpr] using h
          | true =>
              have hins : Inv (storeInsert s (lastSeg path)
                  ⟨t, pyGet payload "price"⟩) :=
                Inv_storeInsert h (hasNonSpace_of_validName hn) hpr
              simpa [do_PUT, hr, hf, hn, hpr] using hins

theorem Inv_do_PATCH (s : Store) (path : String) (body : Body) (h : Inv s) :
    Inv (do_PATCH s path body).1 := by
  cases hr : strStarts path "/products/" with
  | false => simpa [do_PATCH, hr] using h
  | true =>
    rcases hf : storeFind s (lastSeg path) with _ | r0
    · simpa [do_PATCH, hr, hf] using h
    · rcases body with _ | payload
      · simpa [do_PATCH, hr, hf] using h
      · have hr0 : hasNonSpace r0.name = true ∧ priceOk r0.price = true :=
          h.2 (lastSeg path, r0) (storeFind_mem hf)
        cases hkn : hasKey payload "name" with
        | false =>
            cases hkp : hasKey payload "price" with
            | false => simpa [do_PATCH, hr, hf, hkn, hkp] using h
            | true =>
                cases hpr : priceOk (pyGet payload "price") with
                | false => simpa [do_PATCH, hr, hf, hkn, hkp, hpr] using h
                | true =>
                    have hins : Inv (storeInsert s (lastSeg path)
                        ⟨r0.name, pyGet payload "price"⟩) :=
                      Inv_storeInsert h hr0.1 hpr
                    simpa [do_PATCH, hr, hf, hkn, hkp, hpr] using hins
        | true =>
            rcases hn : validName (pyGet payload "name") with _ | t
            · simpa [do_PATCH, hr, hf, hkn, hn] using h
            · have hins1 : Inv (storeInsert s (lastSeg path) ⟨t, r0.price⟩) :=
                Inv_storeInsert h (hasNonSpace_of_validName hn) hr0.2
              cases hkp : hasKey payload "price" with
              | false => simpa [do_PATCH, hr, hf, hkn, hn, hkp] using hins1
              | true =>
                  cases hpr : priceOk (pyGet payload "price") with
                  | false => simpa [do_PATCH, hr, hf, hkn, hn, hkp, hpr] using hins1
                  | true =>
                      have hins2 : Inv (storeInsert
                          (storeInsert s (lastSeg path) ⟨t, r0.price⟩)
                          (lastSeg path) ⟨t, pyGet payload "price"⟩) :=
                        Inv_storeInsert hins1 (hasNonSpace_of_validName hn) hpr
                      simpa [do_PATCH, hr, hf, hkn, hn, hkp, hpr] using hins2

theorem Inv_do_DELETE (s : Store) (path : String) (h : Inv s) :
    Inv (do_DELETE s path).1 := by
  cases hr : strStarts path "/products/" with
  | false => simpa [do_DELETE, hr] using h
  | true =>
    rcases hf : storeFind s (lastSeg path) with _ | r0
    · simpa [do_DELETE, hr, hf] using h
    · simpa [do_DELETE, hr, hf] using Inv_storeErase (lastSeg path) h

/-- C2: every mutating operation (Create, Replace, Partial update, Delete)
preserves the store invariant: ids are pairwise distinct, every stored name
is a non-empty, not whitespace-only string, and every stored price is a
number (in Python's sense, where a `bool` is an `int`) with non-negative
value. -/
theorem ops_preserve_invariant (s : Store) (path : String) (body : Body)
    (h : Inv s) :
    Inv (do_POST s path body).1 ∧ Inv (do_PUT s path body).1 ∧
    Inv (do_PATCH s path body).1 ∧ Inv (do_DELETE s path).1 :=
  ⟨Inv_do_POST s path body h, Inv_do_PUT s path body h,
   Inv_do_PATCH s path body h, Inv_do_DELETE s path h⟩

theorem ops_preserve_invariant_witness :
    Inv (do_POST [("1", ⟨"Laptop", PyVal.num 1200⟩)] "/products"
      (some [("name", PyVal.str " Mouse "), ("price", PyVal.num 25)])).1 ∧
    Inv (do_PUT [("1", ⟨"Laptop", PyVal.num 1200⟩)] "/products"
      (some [("name", PyVal.str " Mouse "), ("price", PyVal.num 25)])).1 ∧
    Inv (do_PATCH [("1", ⟨"Laptop", PyVal.num 1200⟩)] "/products"
      (some [("name", PyVal.str " Mouse "), ("price", PyVal.num 25)])).1 ∧
    Inv (do_DELETE [("1", ⟨"Laptop", PyVal.num 1200⟩)] "/products").1 :=
  ops_preserve_invariant [("1", ⟨"Laptop", PyVal.num 1200⟩)] "/products"
    (some [("name", PyVal.str " Mouse "), ("price", PyVal.num 25)]) (by decide)

end ProductService

